import Mathlib

/-
Verification of the task-tracking application's synchronization core.

The definitions below are shallow embeddings of:
  * frontend/src/services/todoService.js  (namespace TodoService)
  * frontend/src/store/todoStore.js       (namespace TodoStore)
  * backend/controllers/todoController.js (namespace TodoController)

Modelling conventions:
  * Task ids are opaque; they are modelled as Nat.  The JavaScript falsy
    check `!id` on a (string) id is modelled as `id = 0`.
  * Asynchronous calls to the remote store are modelled by passing the
    call's outcome explicitly: a gateway call outcome is an
    `Except String α` parameter, and the statistics refetch performed by
    `updateStats` is an `Except String (List Task)` parameter carrying the
    rows the fetch returned (or its failure).
  * JavaScript numeric arithmetic is modelled over ℚ; `Math.round` on the
    non-negative values occurring here agrees with Mathlib's `round`
    (round half up).
-/

namespace TodoApp

/-- JavaScript `String.prototype.trim()`: removes whitespace from both
ends of the string.  (Lean's own `String.trim` is extensionally the same
but is defined through substring primitives that do not reduce in the
kernel, so the embedding uses this structurally recursive form.) -/
def jsTrim (s : String) : String :=
  String.mk (((s.data.dropWhile Char.isWhitespace).reverse.dropWhile Char.isWhitespace).reverse)

/-- Row shape of the `todos` table, as described by the store schema and
used by all three layers: `{id, user_id, title, description, completed,
created_at, updated_at}`. -/
structure Task where
  id : Nat
  user_id : Nat
  title : String
  description : String
  completed : Bool
  created_at : Nat
  updated_at : Nat
deriving DecidableEq, Repr

/-- Statistics record returned by `todoService.getTodoStats` and held in
the store's `stats` field. -/
structure Stats where
  total : Nat
  completed : Nat
  pending : Nat
  completionRate : Nat
deriving DecidableEq, Repr

namespace TodoService

/-- Row sent to the remote store by `todoService.createTodo`'s insert
call. -/
structure InsertRow where
  title : String
  description : String
  user_id : Nat
deriving DecidableEq, Repr

/-- Embedding of `todoService.createTodo` (todoService.js lines 54-86) up
to and including the construction of the insert request.  The guard
`!title || title.trim().length === 0` rejects before the store is
contacted; `user` is the outcome of `supabase.auth.getUser()`.  Returning
`Except.ok row` means the service issues the store insert with exactly
`row`. -/
def createTodo (title : String) (description : String) (user : Option Nat) :
    Except String InsertRow :=
  if title = "" ∨ (jsTrim title).length = 0 then
    Except.error "Error al crear tarea: El título de la tarea es requerido"
  else
    match user with
    | none => Except.error "Error al crear tarea: Usuario no autenticado"
    | some uid =>
        Except.ok { title := jsTrim title, description := jsTrim description, user_id := uid }

/-- Embedding of `todoService.deleteTodo` (todoService.js lines 150-168).
The supabase call `delete().eq('id', id)` carries no `.select()`, so the
client reports no error when zero rows match: the call succeeds and the
remaining store rows are those whose id differs.  Transport failures are
out of scope here; the result is the post-call store content together
with the service outcome. -/
def deleteTodo (store : List Task) (id : Nat) :
    List Task × Except String Unit :=
  if id = 0 then
    (store, Except.error "Error al eliminar tarea: ID de tarea requerido")
  else
    (store.filter (fun row => row.id != id), Except.ok ())

/-- Embedding of `todoService.getTodoStats` (todoService.js lines
193-216), applied to the rows the `select('completed')` fetch returned.
The source computes `Math.round((completed / total) * 100)`; since
`Math.round x = floor(x + 1/2)` and here `100 * completed / total + 1/2 =
(200 * completed + total) / (2 * total)`, the rate is this natural-number
floor division (the equivalence with `round` over ℚ is proved in
`completionRate_round_eq` below). -/
def getTodoStats (todos : List Task) : Stats :=
  let total := todos.length
  let completed := (todos.filter (fun todo => todo.completed)).length
  let pending := total - completed
  { total := total
    completed := completed
    pending := pending
    completionRate :=
      if 0 < total then (200 * completed + total) / (2 * total) else 0 }

/-- The natural-number form of the completion rate used in `getTodoStats`
agrees with `Math.round((completed / total) * 100)` over ℚ (Mathlib's
`round` rounds half up, exactly like `Math.round`). -/
theorem completionRate_round_eq (c t : Nat) (h : 0 < t) :
    (((200 * c + t) / (2 * t) : Nat) : ℤ) = round ((c : ℚ) / (t : ℚ) * 100) := by
  have ht : (t : ℚ) ≠ 0 := Nat.cast_ne_zero.mpr h.ne'
  rw [round_eq]
  have key : (c : ℚ) / (t : ℚ) * 100 + 1 / 2
      = (((200 * c + t : Nat) : ℤ) : ℚ) / ((2 * t : Nat) : ℚ) := by
    push_cast
    field_simp
    ring
  rw [key, Rat.floor_intCast_div_natCast]
  norm_cast

end TodoService

/-- Return value of the store's `subscribeToRealtime`: either the no-op
closure `() => {}` (returned when a channel already exists) or the real
cleanup closure over the newly created channel. -/
inductive Unsubscribe where
  | noop
  | chan (c : Nat)
deriving DecidableEq, Repr

namespace TodoStore

/-- State of the zustand store `useTodoStore` (todoStore.js lines 29-41):
task list, loading flag, error message, realtime flag, held channel
(channel handles modelled as Nat) and the statistics record. -/
structure StoreState where
  todos : List Task
  loading : Bool
  error : Option String
  realtimeEnabled : Bool
  channel : Option Nat
  stats : Stats
deriving DecidableEq, Repr

/-- Initial state of the store (todoStore.js lines 30-41). -/
def initialState : StoreState :=
  { todos := []
    loading := false
    error := none
    realtimeEnabled := false
    channel := none
    stats := { total := 0, completed := 0, pending := 0, completionRate := 0 } }

/-- Embedding of the store's `updateStats` action (todoStore.js lines
180-187): it refetches statistics through `todoService.getTodoStats`
(a fresh remote fetch, here the explicit `fetched` outcome); a fetch
failure is caught, logged, and leaves `stats` unchanged. -/
def updateStats (fetched : Except String (List Task)) (s : StoreState) :
    StoreState :=
  match fetched with
  | Except.ok rows => { s with stats := TodoService.getTodoStats rows }
  | Except.error _ => s

/-- Embedding of the store's `createTodo` action (todoStore.js lines
76-100): set loading, await the gateway (`g` is its outcome); on success
prepend the returned task and refetch stats; on failure record the error
message only. -/
def createTodo (g : Except String Task) (fetched : Except String (List Task))
    (s : StoreState) : StoreState :=
  let s1 := { s with loading := true, error := none }
  match g with
  | Except.error e => { s1 with error := some e, loading := false }
  | Except.ok newTodo =>
      updateStats fetched { s1 with todos := newTodo :: s1.todos, loading := false }

/-- Embedding of the store's `updateTodo` action (todoStore.js lines
108-134): on success, map over the list replacing entries whose id equals
the argument id by the gateway-returned task, then refetch stats; on
failure record the error message only. -/
def updateTodo (id : Nat) (g : Except String Task)
    (fetched : Except String (List Task)) (s : StoreState) : StoreState :=
  let s1 := { s with loading := true, error := none }
  match g with
  | Except.error e => { s1 with error := some e, loading := false }
  | Except.ok updatedTodo =>
      updateStats fetched
        { s1 with
          todos := s1.todos.map (fun todo => if todo.id = id then updatedTodo else todo)
          loading := false }

/-- Embedding of the store's `deleteTodo` action (todoStore.js lines
141-164): on success, filter out entries with the given id and refetch
stats; on failure record the error message only. -/
def deleteTodo (id : Nat) (g : Except String Unit)
    (fetched : Except String (List Task)) (s : StoreState) : StoreState :=
  let s1 := { s with loading := true, error := none }
  match g with
  | Except.error e => { s1 with error := some e, loading := false }
  | Except.ok _ =>
      updateStats fetched
        { s1 with todos := s1.todos.filter (fun todo => todo.id != id), loading := false }

/-- Embedding of the store's `toggleTodo` action (todoStore.js lines
172-174): it delegates to `updateTodo` with `{completed}` as the update
payload; the payload only affects the gateway request, whose outcome is
`g`. -/
def toggleTodo (id : Nat) (_completed : Bool) (g : Except String Task)
    (fetched : Except String (List Task)) (s : StoreState) : StoreState :=
  updateTodo id g fetched s

/-- Embedding of the store's `fetchTodos` action (todoStore.js lines
47-67): on success both the task list and the statistics are replaced by
the fetched values; on failure only the error message is recorded. -/
def fetchTodos (g : Except String (List Task × Stats)) (s : StoreState) :
    StoreState :=
  let s1 := { s with loading := true, error := none }
  match g with
  | Except.error e => { s1 with error := some e, loading := false }
  | Except.ok todosStats =>
      { s1 with todos := todosStats.1, stats := todosStats.2, loading := false }

/-- Embedding of the realtime `INSERT` branch of `subscribeToRealtime`'s
payload handler (todoStore.js lines 288-296): the incoming row is
prepended unconditionally, then stats are refetched. -/
def handleInsertEvent (t : Task) (fetched : Except String (List Task))
    (s : StoreState) : StoreState :=
  updateStats fetched { s with todos := t :: s.todos }

/-- Embedding of the realtime `UPDATE` branch (todoStore.js lines
298-308): entries whose id equals `payload.new.id` are replaced by the
incoming row, then stats are refetched. -/
def handleUpdateEvent (t : Task) (fetched : Except String (List Task))
    (s : StoreState) : StoreState :=
  updateStats fetched
    { s with todos := s.todos.map (fun todo => if todo.id = t.id then t else todo) }

/-- Embedding of the realtime `DELETE` branch (todoStore.js lines
310-318): entries whose id equals `payload.old.id` are removed, then
stats are refetched. -/
def handleDeleteEvent (oldId : Nat) (fetched : Except String (List Task))
    (s : StoreState) : StoreState :=
  updateStats fetched
    { s with todos := s.todos.filter (fun todo => todo.id != oldId) }

/-- Embedding of `subscribeToRealtime`'s channel management (todoStore.js
lines 262-268 and 329-338): if a channel is already stored the call
returns the no-op closure and changes nothing; otherwise a fresh channel
(handle `fresh`) is created, stored with `realtimeEnabled := true`, and a
real cleanup closure over it is returned. -/
def subscribeToRealtime (fresh : Nat) (s : StoreState) :
    StoreState × Unsubscribe :=
  match s.channel with
  | some _ => (s, Unsubscribe.noop)
  | none =>
      ({ s with channel := some fresh, realtimeEnabled := true }, Unsubscribe.chan fresh)

end TodoStore

namespace TodoController

/-- HTTP responses produced by the backend controller, reduced to the
payloads the claims mention. -/
inductive HttpResp where
  | okRow (row : Task)
  | badRequest (msg : String)
  | notFound (msg : String)
  | serverError (msg : String)
deriving DecidableEq, Repr

/-- JavaScript falsiness of an optional string field of `req.body`:
`undefined` and the empty string are falsy. -/
def jsFalsyStr : Option String → Bool
  | none => true
  | some s => s == ""

/-- Embedding of the validation stage of the backend `createTodo`
(todoController.js lines 51-87): `!title || title.trim() === ''` yields a
400, a trimmed title longer than 255 characters yields a 400, and
otherwise the insert is issued with the trimmed title and
`description ? description.trim() : ''`.  Returning `Except.ok pair`
means the store insert is issued with exactly that (title, description)
pair. -/
def validateCreate (title description : Option String) :
    Except String (String × String) :=
  if jsFalsyStr title || jsTrim (title.getD "") == "" then
    Except.error "El título es requerido"
  else
    let cleanTitle := jsTrim (title.getD "")
    if 255 < cleanTitle.length then
      Except.error "El título no puede exceder 255 caracteres"
    else
      let cleanDescription :=
        if jsFalsyStr description then "" else jsTrim (description.getD "")
      Except.ok (cleanTitle, cleanDescription)

/-- Embedding of the title branch of the backend `updateTodo` validation
(todoController.js lines 134-149): an absent title field imposes no title
update; a present one is rejected when empty after trimming or longer
than 255 characters after trimming, and otherwise trimmed. -/
def validateUpdateTitle (title : Option String) : Except String (Option String) :=
  match title with
  | none => Except.ok none
  | some ti =>
      if ti == "" || jsTrim ti == "" then
        Except.error "El título es requerido"
      else if 255 < (jsTrim ti).length then
        Except.error "El título no puede exceder 255 caracteres"
      else
        Except.ok (some (jsTrim ti))

/-- Model of the supabase-js v2 call
`delete().eq('id', id).eq('user_id', userId).select().single()` issued by
the backend `deleteTodo`: matching rows are removed, and `.single()`
returns the deleted row with no error when exactly one row matched;
with any other match count (in particular zero rows) it returns null
data together with error PGRST116.  The result is (remaining store,
data, error). -/
def singleDelete (store : List Task) (userId : Nat) (id : Nat) :
    List Task × Option Task × Option String :=
  let matched := store.filter (fun row => row.id == id && row.user_id == userId)
  let store1 := store.filter (fun row => !(row.id == id && row.user_id == userId))
  match matched with
  | [row] => (store1, some row, none)
  | _ => (store1, none, some "PGRST116")

/-- Embedding of the backend `deleteTodo` (todoController.js lines
210-261): after the id-format guard (modelled by the `idValid` flag,
since ids are opaque here), the controller issues `singleDelete`; if the
client reported an error it responds 500 (lines 233-239), otherwise if
the returned row is null it responds 404 (lines 242-246), otherwise 200
with the deleted row.  Because `.single()` pairs null data with a
PGRST116 error, the 404 branch is in fact unreachable. -/
def deleteTodo (idValid : Bool) (store : List Task) (userId : Nat) (id : Nat) :
    List Task × HttpResp :=
  if !idValid then
    (store, HttpResp.badRequest "ID de tarea inválido")
  else
    let result := singleDelete store userId id
    match result.2.2 with
    | some _ => (result.1, HttpResp.serverError "Error al eliminar la tarea")
    | none =>
        match result.2.1 with
        | none =>
            (result.1, HttpResp.notFound "Tarea no encontrada o no tienes permisos para eliminarla")
        | some row => (result.1, HttpResp.okRow row)

end TodoController

/-- Minimal model of the JavaScript values involved in the realtime
filter expression of `subscribeToRealtime` (todoStore.js lines 273-282).
A promise carries the value it would resolve to, but — crucially — an
un-awaited promise object has no own `data` property. -/
inductive JSValue where
  | undef
  | jsNull
  | str (s : String)
  | obj (fields : List (String × JSValue))
  | promise (resolved : JSValue)

/-- Property access on a JavaScript value: objects look up their own
fields (absent field gives `undefined`); a promise object has no own
enumerable properties, so any field access on it gives `undefined`. -/
def JSValue.getProp : JSValue → String → JSValue
  | JSValue.obj fields, k => (fields.lookup k).getD JSValue.undef
  | _, _ => JSValue.undef

/-- Optional chaining `v?.k`: short-circuits to `undefined` on
`undefined`/`null`, otherwise accesses the property. -/
def JSValue.optChain : JSValue → String → JSValue
  | JSValue.undef, _ => JSValue.undef
  | JSValue.jsNull, _ => JSValue.undef
  | v, k => JSValue.getProp v k

/-- JavaScript truthiness for the values modelled here. -/
def JSValue.truthy : JSValue → Bool
  | JSValue.undef => false
  | JSValue.jsNull => false
  | JSValue.str s => s != ""
  | JSValue.obj _ => true
  | JSValue.promise _ => true

/-- JavaScript `a || b`. -/
def JSValue.jsOr (a b : JSValue) : JSValue :=
  if JSValue.truthy a then a else b

/-- String coercion applied by `+` when concatenating onto a string. -/
def JSValue.jsToString : JSValue → String
  | JSValue.undef => "undefined"
  | JSValue.jsNull => "null"
  | JSValue.str s => s
  | JSValue.obj _ => "[object Object]"
  | JSValue.promise _ => "[object Promise]"

/-- The value of the un-awaited call `supabase.auth.getUser()` for a user
whose id is `uid`: a promise that would resolve to
`{data: {user: {id: uid}}}`. -/
def getUserCall (uid : String) : JSValue :=
  JSValue.promise
    (JSValue.obj [("data", JSValue.obj [("user", JSValue.obj [("id", JSValue.str uid)])])])

/-- Embedding of the filter expression passed to the realtime channel
(todoStore.js line 281):
`'user_id=eq.' + (supabase.auth.getUser() || \x7b\x7d)?.data?.user?.id`. -/
def realtimeFilter (uid : String) : String :=
  "user_id=eq." ++
    JSValue.jsToString
      (JSValue.optChain
        (JSValue.optChain
          (JSValue.optChain (JSValue.jsOr (getUserCall uid) (JSValue.obj [])) "data")
          "user")
        "id")

/-- The no-duplicate invariant of the spec: the collection holds at most
one entry per id. -/
def distinctIds (todos : List Task) : Prop :=
  (todos.map Task.id).Nodup

/-- Statistics consistency as the spec states it: the stats field equals
the aggregate computed from the current local collection. -/
def statsConsistent (s : TodoStore.StoreState) : Prop :=
  s.stats = TodoService.getTodoStats s.todos

instance (l : List Task) : Decidable (distinctIds l) :=
  inferInstanceAs (Decidable (l.map Task.id).Nodup)

instance (s : TodoStore.StoreState) : Decidable (statsConsistent s) :=
  inferInstanceAs (Decidable (s.stats = TodoService.getTodoStats s.todos))

/-- Concrete fixture: a pending task owned by user 7. -/
def task1 : Task :=
  { id := 1, user_id := 7, title := "Buy milk", description := ""
    completed := false, created_at := 1, updated_at := 1 }

/-- Concrete fixture: a completed task owned by user 7. -/
def task2 : Task :=
  { id := 2, user_id := 7, title := "Walk dog", description := ""
    completed := true, created_at := 2, updated_at := 2 }

/-- Store state holding exactly `task1`, with consistent statistics. -/
def state1 : TodoStore.StoreState :=
  { TodoStore.initialState with
    todos := [task1]
    stats := TodoService.getTodoStats [task1] }

/-- Store state with an active realtime channel (handle 3). -/
def subscribedState : TodoStore.StoreState :=
  { TodoStore.initialState with channel := some 3, realtimeEnabled := true }

/-- The `updateStats` action never changes the task list, whatever the
fetch outcome. -/
theorem updateStats_todos (fetched : Except String (List Task))
    (s : TodoStore.StoreState) :
    (TodoStore.updateStats fetched s).todos = s.todos := by
  cases fetched <;> rfl

/-- Replacing entries whose id matches `id` by a task that carries that
same id leaves the list of ids unchanged. -/
theorem map_replace_ids (l : List Task) (id : Nat) (t : Task) (h : t.id = id) :
    (l.map (fun todo => if todo.id = id then t else todo)).map Task.id
      = l.map Task.id := by
  induction l with
  | nil => rfl
  | cons a l ih =>
      simp only [List.map_cons, ih, List.cons.injEq, and_true]
      by_cases ha : a.id = id
      · simp [ha, h]
      · simp [ha]

/-- Replacing entries whose id matches an id that occurs nowhere in the
list is the identity. -/
theorem map_replace_absent (l : List Task) (id : Nat) (t : Task)
    (h : id ∉ l.map Task.id) :
    l.map (fun todo => if todo.id = id then t else todo) = l := by
  induction l with
  | nil => rfl
  | cons a l ih =>
      simp only [List.map_cons, List.mem_cons, not_or] at h
      simp only [List.map_cons, ih h.2, List.cons.injEq, and_true]
      exact if_neg (fun hc => h.1 hc.symm)

/-- Filtering preserves distinctness of ids. -/
theorem nodup_ids_filter (l : List Task) (p : Task → Bool)
    (h : (l.map Task.id).Nodup) : ((l.filter p).map Task.id).Nodup :=
  h.sublist (List.Sublist.map Task.id (List.filter_sublist l))

/-- C4 (confirmed): for every call to `subscribeToRealtime` the
postgres_changes filter string evaluates to the constant
`"user_id=eq.undefined"`, whatever the current user's id: the expression
reads `.data` off the un-awaited promise returned by
`supabase.auth.getUser()`, which is `undefined`, so the row filter never
names the current user. -/
theorem realtime_filter_is_undefined (uid : String) :
    realtimeFilter uid = "user_id=eq.undefined" := rfl

/-- C9 (confirmed): for every list of tasks, `getTodoStats` returns
total = length, completed = number of completed entries, pending =
total − completed, and completionRate = round(completed / total × 100)
when total is positive and 0 when total is 0. -/
theorem getTodoStats_correct (l : List Task) :
    (TodoService.getTodoStats l).total = l.length ∧
    (TodoService.getTodoStats l).completed = l.countP (fun t => t.completed) ∧
    (TodoService.getTodoStats l).pending
      = l.length - l.countP (fun t => t.completed) ∧
    (l.length = 0 → (TodoService.getTodoStats l).completionRate = 0) ∧
    (0 < l.length →
      ((TodoService.getTodoStats l).completionRate : ℤ)
        = round ((l.countP (fun t => t.completed) : ℚ) / (l.length : ℚ) * 100)) := by
  refine ⟨rfl, (List.countP_eq_length_filter _ _).symm, ?_, ?_, ?_⟩
  · rw [List.countP_eq_length_filter]
    rfl
  · intro h
    simp [TodoService.getTodoStats, h]
  · intro h
    rw [List.countP_eq_length_filter]
    simp only [TodoService.getTodoStats, if_pos h]
    exact TodoService.completionRate_round_eq _ _ h

/-- Witness for `getTodoStats_correct` at the two-task fixture, where the
completion rate is round(1/2 × 100) = 50. -/
theorem getTodoStats_correct_witness :
    ((TodoService.getTodoStats [task1, task2]).completionRate : ℤ)
      = round ((List.countP (fun t => t.completed) [task1, task2] : ℚ)
          / (List.length [task1, task2] : ℚ) * 100) :=
  (getTodoStats_correct [task1, task2]).2.2.2.2 (by decide)

/-- C5 (confirmed): when the gateway call inside createTodo, updateTodo,
toggleTodo or deleteTodo fails, the operation records the error message
and leaves both the task list and the statistics exactly as they were
before the call. -/
theorem failed_mutation_state_untouched (s : TodoStore.StoreState)
    (e : String) (id : Nat) (b : Bool) (fetched : Except String (List Task)) :
    ((TodoStore.createTodo (Except.error e) fetched s).todos = s.todos ∧
     (TodoStore.createTodo (Except.error e) fetched s).stats = s.stats ∧
     (TodoStore.createTodo (Except.error e) fetched s).error = some e) ∧
    ((TodoStore.updateTodo id (Except.error e) fetched s).todos = s.todos ∧
     (TodoStore.updateTodo id (Except.error e) fetched s).stats = s.stats ∧
     (TodoStore.updateTodo id (Except.error e) fetched s).error = some e) ∧
    ((TodoStore.toggleTodo id b (Except.error e) fetched s).todos = s.todos ∧
     (TodoStore.toggleTodo id b (Except.error e) fetched s).stats = s.stats ∧
     (TodoStore.toggleTodo id b (Except.error e) fetched s).error = some e) ∧
    ((TodoStore.deleteTodo id (Except.error e) fetched s).todos = s.todos ∧
     (TodoStore.deleteTodo id (Except.error e) fetched s).stats = s.stats ∧
     (TodoStore.deleteTodo id (Except.error e) fetched s).error = some e) :=
  ⟨⟨rfl, rfl, rfl⟩, ⟨rfl, rfl, rfl⟩, ⟨rfl, rfl, rfl⟩, ⟨rfl, rfl, rfl⟩⟩

/-- C8 (confirmed): at most one realtime subscription is active at a
time; a call to `subscribeToRealtime` while a channel is stored leaves
the state untouched and returns the no-op unsubscribe closure, and only
a call without a stored channel creates (and stores) a fresh channel. -/
theorem subscribe_idempotent (s : TodoStore.StoreState) (c fresh : Nat) :
    (s.channel = some c →
      TodoStore.subscribeToRealtime fresh s = (s, Unsubscribe.noop)) ∧
    (s.channel = none →
      TodoStore.subscribeToRealtime fresh s =
        ({ s with channel := some fresh, realtimeEnabled := true },
          Unsubscribe.chan fresh)) := by
  constructor <;> intro h <;> simp [TodoStore.subscribeToRealtime, h]

/-- Witness for `subscribe_idempotent`: subscribing while channel 3 is
stored is a no-op, and subscribing from the initial state stores the
fresh channel. -/
theorem subscribe_idempotent_witness :
    TodoStore.subscribeToRealtime 9 subscribedState
      = (subscribedState, Unsubscribe.noop) :=
  (subscribe_idempotent subscribedState 3 9).1 rfl

/-- C1 (counterexample): the realtime INSERT handler prepends the
incoming row unconditionally, so delivering the echo of a task that is
already in the collection produces two entries with the same id — the
event is not treated as an update and the no-duplicate invariant fails. -/
theorem realtime_insert_duplicates_counterexample :
    distinctIds state1.todos ∧
    (TodoStore.handleInsertEvent task1 (Except.ok [task1]) state1).todos
      = [task1, task1] ∧
    ¬ distinctIds (TodoStore.handleInsertEvent task1 (Except.ok [task1]) state1).todos :=
  ⟨by decide, rfl, by decide⟩

/-- C1 (amended): the replacing and removing operations (updateTodo with
an id-matching result, deleteTodo, the realtime UPDATE and DELETE
handlers) and all failed operations preserve distinctness of ids, while
the two prepending operations (createTodo success and the realtime
INSERT handler) preserve it only when the incoming task's id is not
already present in the collection. -/
theorem nodup_preserved_except_prepends (s : TodoStore.StoreState)
    (h : distinctIds s.todos) :
    (∀ id t fetched, t.id = id →
      distinctIds (TodoStore.updateTodo id (Except.ok t) fetched s).todos) ∧
    (∀ id fetched,
      distinctIds (TodoStore.deleteTodo id (Except.ok ()) fetched s).todos) ∧
    (∀ t fetched, distinctIds (TodoStore.handleUpdateEvent t fetched s).todos) ∧
    (∀ oldId fetched,
      distinctIds (TodoStore.handleDeleteEvent oldId fetched s).todos) ∧
    (∀ t fetched, t.id ∉ s.todos.map Task.id →
      distinctIds (TodoStore.handleInsertEvent t fetched s).todos) ∧
    (∀ t fetched, t.id ∉ s.todos.map Task.id →
      distinctIds (TodoStore.createTodo (Except.ok t) fetched s).todos) ∧
    (∀ e id fetched,
      distinctIds (TodoStore.createTodo (Except.error e) fetched s).todos ∧
      distinctIds (TodoStore.updateTodo id (Except.error e) fetched s).todos ∧
      distinctIds (TodoStore.deleteTodo id (Except.error e) fetched s).todos) := by
  refine ⟨?_, ?_, ?_, ?_, ?_, ?_, ?_⟩
  · intro id t fetched hid
    simp only [TodoStore.updateTodo, distinctIds, updateStats_todos]
    rw [map_replace_ids _ _ _ hid]
    exact h
  · intro id fetched
    simp only [TodoStore.deleteTodo, distinctIds, updateStats_todos]
    exact nodup_ids_filter _ _ h
  · intro t fetched
    simp only [TodoStore.handleUpdateEvent, distinctIds, updateStats_todos]
    rw [map_replace_ids _ _ _ rfl]
    exact h
  · intro oldId fetched
    simp only [TodoStore.handleDeleteEvent, distinctIds, updateStats_todos]
    exact nodup_ids_filter _ _ h
  · intro t fetched habs
    simp only [TodoStore.handleInsertEvent, distinctIds, updateStats_todos,
      List.map_cons]
    exact List.nodup_cons.mpr ⟨habs, h⟩
  · intro t fetched habs
    simp only [TodoStore.createTodo, distinctIds, updateStats_todos,
      List.map_cons]
    exact List.nodup_cons.mpr ⟨habs, h⟩
  · intro e id fetched
    exact ⟨h, h, h⟩

/-- Witness for `nodup_preserved_except_prepends`: inserting a fresh id
into the one-task fixture keeps the ids distinct. -/
theorem nodup_preserved_except_prepends_witness :
    distinctIds (TodoStore.handleInsertEvent task2 (Except.ok []) state1).todos :=
  (nodup_preserved_except_prepends state1 (by decide)).2.2.2.2.1 task2
    (Except.ok []) (by decide)

/-- C2 (counterexample): statistics are refetched from the remote store,
not derived from the local collection; after the duplicating INSERT echo
(the remote store still holds one copy of the task) the local collection
has two entries but the refetched statistics count one, so the stats
field does not equal the aggregate of the local collection. -/
theorem stats_refetch_divergence_counterexample :
    statsConsistent state1 ∧
    ¬ statsConsistent (TodoStore.handleInsertEvent task1 (Except.ok [task1]) state1) :=
  ⟨rfl, by decide⟩

/-- C2 (amended): after every successful operation the stats field
equals `getTodoStats` of the rows returned by the statistics refetch
(for fetchTodos, the separately fetched stats value) — not of the local
collection; the two coincide exactly when the refetched rows match the
local result, as the final conjunct shows for the INSERT handler. -/
theorem stats_equal_refetched_aggregate (s : TodoStore.StoreState)
    (rows l : List Task) (t : Task) (id oldId : Nat) (st : Stats) :
    ((TodoStore.createTodo (Except.ok t) (Except.ok rows) s).stats
      = TodoService.getTodoStats rows) ∧
    ((TodoStore.updateTodo id (Except.ok t) (Except.ok rows) s).stats
      = TodoService.getTodoStats rows) ∧
    ((TodoStore.deleteTodo id (Except.ok ()) (Except.ok rows) s).stats
      = TodoService.getTodoStats rows) ∧
    ((TodoStore.handleInsertEvent t (Except.ok rows) s).stats
      = TodoService.getTodoStats rows) ∧
    ((TodoStore.handleUpdateEvent t (Except.ok rows) s).stats
      = TodoService.getTodoStats rows) ∧
    ((TodoStore.handleDeleteEvent oldId (Except.ok rows) s).stats
      = TodoService.getTodoStats rows) ∧
    ((TodoStore.fetchTodos (Except.ok (l, st)) s).stats = st) ∧
    (rows = (TodoStore.handleInsertEvent t (Except.ok rows) s).todos →
      statsConsistent (TodoStore.handleInsertEvent t (Except.ok rows) s)) := by
  refine ⟨rfl, rfl, rfl, rfl, rfl, rfl, rfl, ?_⟩
  intro hrows
  unfold statsConsistent
  rw [← hrows]
  rfl

/-- Witness for `stats_equal_refetched_aggregate`: when the refetch
returns exactly the post-insert collection, statistics are consistent. -/
theorem stats_equal_refetched_aggregate_witness :
    statsConsistent
      (TodoStore.handleInsertEvent task2 (Except.ok [task2]) TodoStore.initialState) :=
  (stats_equal_refetched_aggregate TodoStore.initialState [task2] [] task2 0 0
    TodoStore.initialState.stats).2.2.2.2.2.2.2 (by decide)

/-- C3 (counterexample): an update whose id is absent from the local
collection is silently discarded: both the local updateTodo success path
and the realtime UPDATE handler map over the empty collection and leave
it empty instead of upserting the task at the head. -/
theorem update_absent_discarded_counterexample :
    (TodoStore.updateTodo 2 (Except.ok task2) (Except.ok [task2])
        TodoStore.initialState).todos = [] ∧
    (TodoStore.handleUpdateEvent task2 (Except.ok [task2])
        TodoStore.initialState).todos = [] :=
  ⟨rfl, rfl⟩

/-- C3 (amended): when the task id is not present in the collection,
both the local update success path and the realtime UPDATE handler leave
the collection unchanged (the result is discarded, not upserted at the
head); when it is present, the matching entries are replaced in place —
the length is preserved and every position holds either its old entry or
the replacement. -/
theorem update_inplace_or_discard (s : TodoStore.StoreState) (id : Nat)
    (t : Task) (fetched : Except String (List Task)) :
    (id ∉ s.todos.map Task.id →
      (TodoStore.updateTodo id (Except.ok t) fetched s).todos = s.todos) ∧
    (t.id ∉ s.todos.map Task.id →
      (TodoStore.handleUpdateEvent t fetched s).todos = s.todos) ∧
    ((TodoStore.updateTodo id (Except.ok t) fetched s).todos.length
      = s.todos.length) ∧
    (∀ j : Nat, (TodoStore.updateTodo id (Except.ok t) fetched s).todos[j]?
      = (s.todos[j]?).map (fun todo => if todo.id = id then t else todo)) := by
  refine ⟨?_, ?_, ?_, ?_⟩
  · intro h
    simp only [TodoStore.updateTodo, updateStats_todos]
    exact map_replace_absent _ _ _ h
  · intro h
    simp only [TodoStore.handleUpdateEvent, updateStats_todos]
    exact map_replace_absent _ _ _ h
  · simp only [TodoStore.updateTodo, updateStats_todos, List.length_map]
  · intro j
    simp only [TodoStore.updateTodo, updateStats_todos, List.getElem?_map]

/-- Witness for `update_inplace_or_discard`: an update for the unknown
id 5 leaves the one-task fixture unchanged. -/
theorem update_inplace_or_discard_witness :
    (TodoStore.updateTodo 5 (Except.ok task2) (Except.ok []) state1).todos
      = state1.todos :=
  (update_inplace_or_discard state1 5 task2 (Except.ok [])).1 (by decide)

/-- A string of length zero is the empty string. -/
theorem string_eq_empty_of_length_eq_zero {s : String} (h : s.length = 0) :
    s = "" := by
  cases s with
  | mk data =>
      cases data with
      | nil => rfl
      | cons c cs => simp [String.length] at h

/-- C6 (counterexample): the frontend gateway delete issues
`delete().eq('id', id)` with no row selection, so when zero rows match
(here: a store whose only row has id 2, deleted id 1) the call succeeds —
no NotFoundError is produced. -/
theorem delete_zero_rows_no_error_counterexample :
    (1 : Nat) ∉ [task2].map Task.id ∧
    TodoService.deleteTodo [task2] 1 = ([task2], Except.ok ()) :=
  ⟨by decide, rfl⟩

/-- C6 (amended): when the store's delete matches zero rows, the
frontend gateway delete used by the Core succeeds silently (no
NotFoundError) and the Core's collection, already lacking the entry, is
unchanged; the backend controller does not report the zero-row condition
as 404 either: its `.select().single()` sets error PGRST116 on zero
rows, so the controller answers 500 through its error branch, and its
404 branch is unreachable for every input. -/
theorem delete_absent_semantics (s : TodoStore.StoreState)
    (store : List Task) (uid id : Nat) (fetched : Except String (List Task))
    (hid : ¬ id = 0) (hstore : id ∉ store.map Task.id)
    (hloc : id ∉ s.todos.map Task.id) :
    (TodoService.deleteTodo store id = (store, Except.ok ())) ∧
    ((TodoStore.deleteTodo id (Except.ok ()) fetched s).todos = s.todos) ∧
    ((TodoController.deleteTodo true store uid id).2
      = TodoController.HttpResp.serverError "Error al eliminar la tarea") ∧
    (∀ (v : Bool) (st : List Task) (u i : Nat) (msg : String),
      (TodoController.deleteTodo v st u i).2
        ≠ TodoController.HttpResp.notFound msg) := by
  refine ⟨?_, ?_, ?_, ?_⟩
  · simp only [TodoService.deleteTodo, if_neg hid]
    rw [List.filter_eq_self.mpr]
    intro row hrow
    simp only [bne_iff_ne, ne_eq]
    exact fun hc => hstore (hc ▸ List.mem_map_of_mem Task.id hrow)
  · simp only [TodoStore.deleteTodo, updateStats_todos]
    rw [List.filter_eq_self.mpr]
    intro row hrow
    simp only [bne_iff_ne, ne_eq]
    exact fun hc => hloc (hc ▸ List.mem_map_of_mem Task.id hrow)
  · have hnil : store.filter (fun row => row.id == id && row.user_id == uid) = [] := by
      rw [List.filter_eq_nil_iff]
      intro row hrow
      simp only [Bool.and_eq_true, beq_iff_eq, not_and]
      exact fun hc _ => hstore (hc ▸ List.mem_map_of_mem Task.id hrow)
    simp [TodoController.deleteTodo, TodoController.singleDelete, hnil]
  · intro v st u i msg
    cases v with
    | false => simp [TodoController.deleteTodo]
    | true =>
        simp only [TodoController.deleteTodo, TodoController.singleDelete,
          Bool.not_true, Bool.false_eq_true, if_false]
        generalize st.filter (fun row => row.id == i && row.user_id == u) = matched
        match matched with
        | [] => simp
        | [row] => simp
        | a :: b :: tl => simp

/-- Witness for `delete_absent_semantics` at a store holding only task2
and the absent id 1: the backend answers 500, not 404. -/
theorem delete_absent_semantics_witness :
    (TodoController.deleteTodo true [task2] 7 1).2
      = TodoController.HttpResp.serverError "Error al eliminar la tarea" :=
  (delete_absent_semantics TodoStore.initialState [task2] 7 1 (Except.ok [])
    (by decide) (by decide) (by decide)).2.2.1

/-- C7 (confirmed): a title that is empty after trimming is rejected by
the gateway create with a validation error before any store call (the
service returns the error instead of an insert row), and the Core leaves
the collection and statistics untouched under that failure; every
accepted input is sent with title and description trimmed. -/
theorem create_validation_rejects_empty (title description : String)
    (uid : Nat) :
    (jsTrim title = "" →
      TodoService.createTodo title description (some uid)
        = Except.error "Error al crear tarea: El título de la tarea es requerido") ∧
    (¬ jsTrim title = "" →
      TodoService.createTodo title description (some uid)
        = Except.ok
            { title := jsTrim title, description := jsTrim description
              user_id := uid }) ∧
    (∀ s fetched e,
      (TodoStore.createTodo (Except.error e) fetched s).todos = s.todos ∧
      (TodoStore.createTodo (Except.error e) fetched s).stats = s.stats) := by
  refine ⟨?_, ?_, fun s fetched e => ⟨rfl, rfl⟩⟩
  · intro h
    have hg : title = "" ∨ (jsTrim title).length = 0 := Or.inr (by rw [h]; rfl)
    simp only [TodoService.createTodo, if_pos hg]
  · intro h
    have hg : ¬ (title = "" ∨ (jsTrim title).length = 0) := by
      rintro (rfl | hlen)
      · exact h rfl
      · exact h (string_eq_empty_of_length_eq_zero hlen)
    simp only [TodoService.createTodo, if_neg hg]

/-- Witness for `create_validation_rejects_empty`: the empty title is
rejected, and a padded title is trimmed on the accepted path. -/
theorem create_validation_rejects_empty_witness :
    TodoService.createTodo "" "desc" (some 7)
      = Except.error "Error al crear tarea: El título de la tarea es requerido" :=
  (create_validation_rejects_empty "" "desc" 7).1 (by decide)

/-- Fixture for the title-length claims: 101 repetitions of the letter
a, unaffected by trimming. -/
def longTitle : String := String.mk (List.replicate 101 'a')

/-- C10 (counterexample): a trimmed title of 101 characters — longer
than the 100-character limit the spec states — is accepted by the
backend create validation, by the backend update-title validation, and
by the frontend gateway create, with no validation error. -/
theorem title_length_limit_counterexample :
    100 < (jsTrim longTitle).length ∧
    TodoController.validateCreate (some longTitle) none
      = Except.ok (longTitle, "") ∧
    TodoController.validateUpdateTitle (some longTitle)
      = Except.ok (some longTitle) ∧
    TodoService.createTodo longTitle "" (some 7)
      = Except.ok { title := longTitle, description := "", user_id := 7 } :=
  ⟨by decide, rfl, rfl, rfl⟩

/-- C10 (amended): every accepted title is non-empty after trimming, but
the length bound is 255 characters and is enforced only by the backend
controller (create and update-title validation); the frontend gateway
imposes no upper bound and accepts any title that is non-empty after
trimming. -/
theorem title_limits_255_backend_only (t d : String) (uid : Nat) :
    (255 < (jsTrim t).length →
      TodoController.validateCreate (some t) (some d)
        = Except.error "El título no puede exceder 255 caracteres" ∧
      TodoController.validateUpdateTitle (some t)
        = Except.error "El título no puede exceder 255 caracteres") ∧
    (¬ jsTrim t = "" → (jsTrim t).length ≤ 255 →
      TodoController.validateCreate (some t) (some d)
        = Except.ok (jsTrim t, jsTrim d)) ∧
    (¬ jsTrim t = "" →
      TodoService.createTodo t d (some uid)
        = Except.ok { title := jsTrim t, description := jsTrim d
                      user_id := uid }) := by
  have hd0 : jsTrim "" = "" := rfl
  refine ⟨?_, ?_, ?_⟩
  · intro hlen
    have htr : ¬ jsTrim t = "" := by
      intro hh
      rw [hh] at hlen
      simp at hlen
    have ht0 : ¬ t = "" := by
      intro hh
      exact htr (hh ▸ hd0)
    constructor
    · simp [TodoController.validateCreate, TodoController.jsFalsyStr,
        ht0, htr, hlen]
    · simp [TodoController.validateUpdateTitle, ht0, htr, hlen]
  · intro htr hlen
    have ht0 : ¬ t = "" := by
      intro hh
      exact htr (hh ▸ hd0)
    by_cases hdd : d = ""
    · subst hdd
      simp [TodoController.validateCreate, TodoController.jsFalsyStr,
        ht0, htr, Nat.not_lt.mpr hlen, hd0]
    · simp [TodoController.validateCreate, TodoController.jsFalsyStr,
        ht0, htr, hdd, Nat.not_lt.mpr hlen]
  · intro htr
    have hg : ¬ (t = "" ∨ (jsTrim t).length = 0) := by
      rintro (rfl | hlen)
      · exact htr rfl
      · exact htr (string_eq_empty_of_length_eq_zero hlen)
    simp only [TodoService.createTodo, if_neg hg]

/-- Witness for `title_limits_255_backend_only`: an ordinary short title
is accepted by the frontend gateway with trimmed fields. -/
theorem title_limits_255_backend_only_witness :
    TodoService.createTodo "Buy milk" "x" (some 7)
      = Except.ok { title := "Buy milk", description := "x", user_id := 7 } :=
  (title_limits_255_backend_only "Buy milk" "x" 7).2.2 (by decide)

end TodoApp
